import Mathlib

/-!
Shallow embedding of the fty-discovery-ng scan engine, covering
`src/server/src/jobs/protocols.cpp` and
`src/server/src/jobs/auto-discovery.cpp`.

Network syscalls, the message bus, DNS and the address expander are
external collaborators; they are modelled as explicit oracle parameters
(plain functions/values passed in), so every embedded function is a pure,
executable Lean definition whose control flow mirrors the C++ source
line by line.
-/

namespace FtyDisco

/-! ## protocols.cpp : data model -/

/-- Tri-state availability (`commands::protocols::Return::Available`).
The pack enum default-constructs to its first enumerator, `No`. -/
inductive Available where
  | no
  | yes
  | maybe
deriving DecidableEq

/-- One per-protocol probe result (`commands::protocols::Return`):
protocol identifier, port, reachability, availability. -/
structure ProtocolEntry where
  protocol : String
  port : Nat
  reachable : Bool
  available : Available
deriving DecidableEq

/-- Input of the protocols job (`commands::protocols::In`):
address plus the optional protocol filter list. -/
structure ProtocolsIn where
  address : String
  protocols : List String

/-- Outcomes of the network syscalls used by `Protocols::trySnmp`
(lines 236-278): `getaddrinfo`, `socket`, `timeoutConnect` (whose result
is `unexpected` only when `poll` itself fails; a connect timeout still
returns success in the source), and the per-attempt result of `write`
on the connected datagram socket (`writeOk i` is `true` iff the `i`-th
write returns something other than -1). -/
structure SnmpNet where
  getaddrinfoOk : Bool
  socketOk : Bool
  connectOk : Bool
  writeOk : Nat → Bool

/-- Oracle outcomes for one address probe in `Protocols::run`:
the liveness check `available(in.address)` (impl/ping), and the results
of `tryPowercom` and `tryXmlPdc`, whose bodies live behind external
HTTP/XML/YAML helpers. The SNMP stage is embedded in full from
`trySnmp`. -/
structure ProbeNet where
  availableHost : Bool
  powercom : Except String Unit
  xmlPdc : Except String Unit
  snmp : SnmpNet

/-! ## protocols.cpp : trySnmp (lines 236-278) -/

/-- The write-retry loop of `trySnmp` (lines 265-273) over a list of
attempt indices: returns how many `write` calls were performed and
whether all of them succeeded. The loop stops at the first failing
write. -/
def snmpWrites (writeOk : Nat → Bool) : List Nat → Nat × Bool
  | [] => (0, true)
  | i :: rest =>
    if writeOk i then
      let r := snmpWrites writeOk rest
      (r.1 + 1, r.2)
    else (1, false)

/-- `Protocols::trySnmp` (lines 236-278): resolve the address, open a
non-blocking datagram socket, bounded-time connect, then `N = 20` write
attempts; any failing write yields an error, otherwise success. -/
def trySnmp (net : SnmpNet) : Except String Unit :=
  if !net.getaddrinfoOk then .error "getaddrinfo failed"
  else if !net.socketOk then .error "socket failed"
  else if !net.connectOk then .error "poll failed"
  else if (snmpWrites net.writeOk (List.range 20)).2 then .ok ()
  else .error "Socket write failed"

/-- Number of `write` syscalls `trySnmp` performs on the datagram
socket (0 when an earlier stage already failed). -/
def trySnmpWriteCount (net : SnmpNet) : Nat :=
  if net.getaddrinfoOk && net.socketOk && net.connectOk then
    (snmpWrites net.writeOk (List.range 20)).1
  else 0

/-! ## protocols.cpp : run (lines 63-145) -/

/-- The entry `Protocols::run` appends for the Powercom try
(lines 105-115): reachable/`Yes` on success, default
not-reachable/`No` otherwise. -/
def powercomEntry (r : Except String Unit) : ProtocolEntry :=
  match r with
  | .ok _ => ⟨"nut_powercom", 443, true, .yes⟩
  | .error _ => ⟨"nut_powercom", 443, false, .no⟩

/-- The entry `Protocols::run` appends for the XML-PDC try
(lines 116-126). -/
def xmlPdcEntry (r : Except String Unit) : ProtocolEntry :=
  match r with
  | .ok _ => ⟨"nut_xml_pdc", 80, true, .yes⟩
  | .error _ => ⟨"nut_xml_pdc", 80, false, .no⟩

/-- The entry `Protocols::run` appends for the SNMP try
(lines 127-137): reachable with `Maybe` availability on success. -/
def snmpEntry (r : Except String Unit) : ProtocolEntry :=
  match r with
  | .ok _ => ⟨"nut_snmp", 161, true, .maybe⟩
  | .error _ => ⟨"nut_snmp", 161, false, .no⟩

/-- `Protocols::run` (lines 63-145). The `__fake__` sentinel address
short-circuits to two fixed entries (lines 65-76; their `available`
field is left at the pack default `No`); otherwise a failing liveness
check throws (line 79), and otherwise the fixed ordered list
Powercom/Xml/Snmp is probed unconditionally — the `in.protocols` filter
field is never read by `run`. -/
def protocolsRun (net : ProbeNet) (inp : ProtocolsIn) : Except String (List ProtocolEntry) :=
  if inp.address = "__fake__" then
    .ok [⟨"nut_snmp", 1234, true, .no⟩, ⟨"nut_xml_pdc", 4321, false, .no⟩]
  else if !net.availableHost then
    .error ("Host is not available: " ++ inp.address)
  else
    .ok [powercomEntry net.powercom, xmlPdcEntry net.xmlPdc, snmpEntry (trySnmp net.snmp)]

/-! ## auto-discovery.cpp : data model -/

/-- Scan state machine values
(`fty::disco::commands::scan::status::Status`). -/
inductive ScanState where
  | unknown
  | inProgress
  | terminated
  | cancelledByUser
deriving DecidableEq

/-- The shared scan status (`m_statusDiscovery`,
`commands::scan::status::Out`): state, discovered-by-subtype counters,
total discovered, progress percentage. Counters are modelled as `Nat`;
no claim exercises a counter near its machine-word bound. -/
structure StatusDiscovery where
  state : ScanState
  ups : Nat
  epdu : Nat
  sts : Nat
  sensors : Nat
  discovered : Nat
  progress : Nat
deriving DecidableEq

/-- 2^64, the modulus of the `size_t` address counters
`m_listIpAddressNb` / `m_listIpAddressCount`. -/
def W64 : Nat := 2 ^ 64

/-- 2^32: `updateStatusDiscoveryProgress` casts its quotient with
`static_cast<uint32_t>`. -/
def W32 : Nat := 2 ^ 32

/-- The mutable fields of `AutoDiscovery` that the status/progress
operations touch: the shared status plus the total and remaining
address counters (both `size_t`, values kept below `W64`). -/
structure DiscoState where
  status : StatusDiscovery
  listIpAddressNb : Nat
  listIpAddressCount : Nat
deriving DecidableEq

/-! ## auto-discovery.cpp : status operations (lines 203-271, 423-449, 545-559)

Every one of these operations runs under `m_mutex` in the source, so a
reader can only observe the state before or after a whole operation;
the embedding therefore treats each operation as one atomic step. -/

/-- `AutoDiscovery::statusDiscoveryInit` (lines 203-214). -/
def statusDiscoveryInit (s : DiscoState) : DiscoState :=
  { s with status := ⟨.unknown, 0, 0, 0, 0, 0, 0⟩ }

/-- `AutoDiscovery::statusDiscoveryReset` (lines 216-227). -/
def statusDiscoveryReset (s : DiscoState) : DiscoState :=
  { s with status := ⟨.inProgress, 0, 0, 0, 0, 0, 0⟩ }

/-- `AutoDiscovery::updateStatusDiscoveryCounters` (lines 229-248):
bump the matching subtype counter and the total; an unrecognized
subtype only logs and returns, leaving the state untouched. -/
def updateStatusDiscoveryCounters (deviceSubType : String) (s : DiscoState) : DiscoState :=
  if deviceSubType = "ups" then
    { s with status := { s.status with
        ups := s.status.ups + 1
        discovered := s.status.discovered + 1 } }
  else if deviceSubType = "epdu" then
    { s with status := { s.status with
        epdu := s.status.epdu + 1
        discovered := s.status.discovered + 1 } }
  else if deviceSubType = "sts" then
    { s with status := { s.status with
        sts := s.status.sts + 1
        discovered := s.status.discovered + 1 } }
  else if deviceSubType = "sensor" then
    { s with status := { s.status with
        sensors := s.status.sensors + 1
        discovered := s.status.discovered + 1 } }
  else s

/-- `m_listIpAddressCount --` on a `size_t`: wrapping decrement. -/
def decrementW64 (c : Nat) : Nat := (c + (W64 - 1)) % W64

/-- The clamp at lines 256-258: values above 100 become 100. -/
def clamp100 (p : Nat) : Nat := if p > 100 then 100 else p

/-- The progress value computed at lines 253-262 from the total `nb`
and the already-decremented remaining count `count`:
`static_cast<uint32_t>(std::round(100 * (nb - count) / nb))`, clamped —
all three operands are `size_t`, so `100 * (nb - count) / nb` is
unsigned integer arithmetic (wrapping subtraction and product,
truncating division) and `std::round` acts on an already-integral
value; a zero total yields 100 directly. -/
def progressFormula (nb count : Nat) : Nat :=
  if nb ≠ 0 then
    clamp100 ((((100 * ((nb + W64 - count) % W64)) % W64) / nb) % W32)
  else 100

/-- `AutoDiscovery::updateStatusDiscoveryProgress` (lines 250-263):
decrement the remaining counter, then recompute the progress field. -/
def updateStatusDiscoveryProgress (s : DiscoState) : DiscoState :=
  { s with
      listIpAddressCount := decrementW64 s.listIpAddressCount,
      status := { s.status with
        progress := progressFormula s.listIpAddressNb (decrementW64 s.listIpAddressCount) } }

/-- `AutoDiscovery::scanCheck` (lines 423-449), the watchdog body with
the compile-time-disabled stall workaround elided (the source
`#undef`s `WORK_AROUND_SCAN_BLOCKING`): with zero active tasks it
flips the state to TERMINATED and reports the loop finished. -/
def scanCheck (countActiveTasks : Nat) (s : DiscoState) : DiscoState × Bool :=
  if countActiveTasks = 0 then
    ({ s with status := { s.status with state := .terminated } }, true)
  else (s, false)

/-- `AutoDiscovery::stop` (lines 545-559): only an IN_PROGRESS scan can
be cancelled. -/
def stopDiscovery (s : DiscoState) : Except String DiscoState :=
  if s.status.state = .inProgress then
    .ok { s with status := { s.status with state := .cancelledByUser } }
  else .error "No scan in progress"

/-- The status-mutating operations of the orchestrator, each one a
mutex-serialized critical section in the source. -/
inductive StatusOp where
  | initOp
  | resetOp
  | countersOp (deviceSubType : String)
  | progressOp
  | checkOp (countActiveTasks : Nat)
  | stopOp

/-- Apply one status-mutating operation. -/
def applyStatusOp (op : StatusOp) (s : DiscoState) : DiscoState :=
  match op with
  | .initOp => statusDiscoveryInit s
  | .resetOp => statusDiscoveryReset s
  | .countersOp st => updateStatusDiscoveryCounters st s
  | .progressOp => updateStatusDiscoveryProgress s
  | .checkOp n => (scanCheck n s).1
  | .stopOp =>
    match stopDiscovery s with
    | .ok s2 => s2
    | .error _ => s

/-- Apply a sequence of status-mutating operations, oldest first. -/
def applyStatusOps (l : List StatusOp) (s : DiscoState) : DiscoState :=
  l.foldl (fun acc op => applyStatusOp op acc) s

/-- The counter coherence property: the per-subtype counters sum to the
total discovered counter. -/
def countersCoherent (s : DiscoState) : Prop :=
  s.status.ups + s.status.epdu + s.status.sts + s.status.sensors = s.status.discovered

instance (s : DiscoState) : Decidable (countersCoherent s) := by
  unfold countersCoherent; infer_instance

/-! ## auto-discovery.cpp : updateExt (lines 58-87)

The input `commands::assets::Ext` is a sequence of string maps; each
map is embedded as its iteration sequence, a list of key/value pairs
(for a `std::map` that sequence is sorted by key and duplicate-free,
but the embedding is faithful for any pair sequence). The output
`asset::create::Ext` is the append-ordered list of named attributes. -/

/-- `asset::create::MapExtObj` as far as `updateExt` and
`updateHostName` set it: a value and a read-only flag (the external
pack type default-constructs both to empty/false). -/
structure MapExtObj where
  value : String
  readOnly : Bool
deriving DecidableEq

/-- Default-constructed `asset::create::MapExtObj` (line 70). -/
def mapExtObjDefault : MapExtObj := ⟨"", false⟩

/-- The inner loop of `updateExt` (lines 73-81) over one input map:
threads `keyVal` and `newMapExtObj` through the key/value pairs.
A `read_only` pair sets the flag to whether its value is `"true"`;
any other pair becomes the candidate name/value. -/
def updateExtMapLoop (acc : String × MapExtObj) : List (String × String) → String × MapExtObj
  | [] => acc
  | (key, value) :: rest =>
    if key = "read_only" then
      updateExtMapLoop (acc.1, { acc.2 with readOnly := value = "true" }) rest
    else
      updateExtMapLoop (key, { acc.2 with value := value }) rest

/-- `AutoDiscovery::updateExt` (lines 58-87): one pass per input map;
the map contributes `(keyVal, newMapExtObj)` unless `keyVal` stayed
empty (line 82). -/
def updateExt (extIn : List (List (String × String))) : List (String × MapExtObj) :=
  extIn.foldr
    (fun m out =>
      let r := updateExtMapLoop ("", mapExtObjDefault) m
      (if r.1 = "" then [] else [(r.1, r.2)]) ++ out)
    []

/-- Spec-described translation, per §4.4 of the spec amended by the
counterexample: within each map the pairs whose key is not `read_only`
are the candidates, the last such pair gives the attribute name and
value, a `read_only` entry with value `"true"` marks it read-only, and
a map contributes nothing when it has no such candidate or when the
last candidate key is the empty string. -/
def updateExtSpecAmended (extIn : List (List (String × String))) : List (String × MapExtObj) :=
  extIn.foldr
    (fun m out =>
      let others := m.filter (fun kv => kv.1 ≠ "read_only")
      let ro :=
        match (m.filter (fun kv => kv.1 = "read_only")).getLast? with
        | some kv => kv.2 = "true"
        | none => false
      (match others.getLast? with
       | some kv => if kv.1 = "" then [] else [(kv.1, ⟨kv.2, ro⟩)]
       | none => []) ++ out)
    []

/-! ## auto-discovery.cpp : updateHostName (lines 89-123) -/

/-- DNS oracles for `updateHostName`: whether `inet_aton` accepts the
address string, and the reverse lookup `getnameinfo` performs on the
parsed address (`some name` when it returns 0, `none` otherwise). -/
structure HostNet where
  inetAton : String → Bool
  nameLookup : String → Option String

/-- The truncation at the first domain separator
(lines 105-108: `strchr(dnsName, htmlDot)` then `*p = 0`). -/
def hostnameFromDns (dnsName : String) : String :=
  ⟨dnsName.data.takeWhile (fun c => c ≠ '.')⟩

/-- `AutoDiscovery::updateHostName` (lines 89-123). The source mutates
`ext` in place; the embedding returns the call result together with the
`ext` list after the call. Appends happen only inside the
lookup-success branch: `dns.1` with the full name, then `hostname` with
the name cut at the first dot, both with `readOnly = false`. -/
def updateHostName (net : HostNet) (address : String) (ext : List (String × MapExtObj)) :
    Except String Unit × List (String × MapExtObj) :=
  if address ≠ "" then
    if net.inetAton address then
      match net.nameLookup address with
      | some dnsName =>
        (.ok (), ext ++ [("dns.1", ⟨dnsName, false⟩),
                         ("hostname", ⟨hostnameFromDns dnsName, false⟩)])
      | none => (.error ("No host information retrieved from DNS for " ++ address), ext)
    else (.error ("Error during read DNS for " ++ address), ext)
  else (.error "Ip address empty", ext)

/-! ## auto-discovery.cpp : readConfig and start (lines 125-201, 497-543) -/

/-- `ConfigDiscovery::Discovery::Type` values. `other` stands for any
enum value outside the four handled ones — the `else` branch of
`readConfig` (line 197). -/
inductive DiscoveryType where
  | ip
  | multi
  | full
  | local
  | other
deriving DecidableEq

/-- One default power link from the request (`in.links`). -/
structure LinkIn where
  src : String
  type : Nat
deriving DecidableEq

/-- `asset::create::PowerLink` as filled by `readConfig`
(lines 129-139). -/
structure PowerLink where
  source : String
  link_type : Nat
deriving DecidableEq

/-- The discovery section of the start request
(`in.discovery`). -/
structure DiscoveryIn where
  type : DiscoveryType
  ips : List String
  scans : List String
  protocols : List String
  documents : List String

/-- The aux section of the start request (`in.aux`). -/
structure AuxIn where
  priority : Nat
  parent : String

/-- `disco::commands::scan::start::In`, the start request. -/
structure StartIn where
  links : List LinkIn
  discovery : DiscoveryIn
  aux : AuxIn

/-- Oracles for the external address expander
(`address::AddressParser`): per-range expansion and local-subnet
expansion. -/
structure RangeNet where
  rangeIp : String → Except String (List String)
  localRangeIp : Except String (List String)

/-- The link part of `readConfig` (lines 127-140): links whose source
is the sentinel `"0"` are skipped. -/
def readConfigLinks (links : List LinkIn) : List PowerLink :=
  links.foldr
    (fun link out => (if link.src = "0" then [] else [⟨link.src, link.type⟩]) ++ out)
    []

/-- The address part of `readConfig` (lines 142-199), building
`m_listIpAddress`. Range-expansion failures are logged and skipped
(partial results accepted). The emptiness checks at lines 145-147,
154-156 and 169-171 and the bad-type branch at line 198 construct a
`fty::unexpected` value *without returning it*, so they have no effect:
the embedding keeps their `if` shape with an unused binding to mirror
the dead statements. -/
def readConfigIps (net : RangeNet) (inp : StartIn) : List String :=
  let expand : List String → List String := fun scans =>
    scans.foldr
      (fun range out =>
        (match net.rangeIp range with
         | .ok listIp => listIp
         | .error _ => []) ++ out)
      []
  match inp.discovery.type with
  | .ip =>
    let _dead := if inp.discovery.ips.length = 0 then some "Ips list empty" else none
    inp.discovery.ips
  | .multi =>
    let _dead := if inp.discovery.scans.length = 0 then some "Scans list empty" else none
    expand inp.discovery.scans
  | .full =>
    let _dead :=
      if inp.discovery.ips.length = 0 && inp.discovery.scans.length = 0 then
        some "Ips and scans list empty"
      else none
    inp.discovery.ips ++ expand inp.discovery.scans
  | .local =>
    match net.localRangeIp with
    | .ok listIp => listIp
    | .error _ => []
  | .other =>
    let _dead := some "Bad scan type"
    []

/-- `AutoDiscovery::readConfig` (lines 125-201). Because every
`fty::unexpected(...)` in its body is a discarded expression statement,
control always reaches the final `return `, and the function never
fails. -/
def readConfig (net : RangeNet) (inp : StartIn) :
    Except String (List PowerLink × List String) :=
  .ok (readConfigLinks inp.links, readConfigIps net inp)

/-- `AutoDiscovery::start` (lines 497-543): refuse while IN_PROGRESS;
otherwise reset the status, (re)create the pool, run `readConfig`
(returning `Bad input parameter` on its error — unreachable), record
the address counters and dispatch one scan task per address. The
returned list is the sequence of addresses pushed to the worker pool
(`pushWorker`, line 530), in order. -/
def startDiscovery (net : RangeNet) (inp : StartIn) (s : DiscoState) :
    Except String (DiscoState × List String) :=
  if s.status.state ≠ .inProgress then
    let s1 := statusDiscoveryReset s
    match readConfig net inp with
    | .error e => .error ("Bad input parameter: " ++ e)
    | .ok r =>
      let ips := r.2
      let s2 := { s1 with listIpAddressNb := ips.length, listIpAddressCount := ips.length }
      .ok (s2, ips)
  else .error "Scan in progress"

/-! ## auto-discovery.cpp : the waterfall of the scan task (lines 273-421)

`AutoDiscovery::scan` drives, for one address, the protocol loop
(line 307) and the credential loop (line 316), with a `found` flag that
breaks out of both on the first successful `Assets::getAssets` call.
`Assets::getAssets` itself is an external collaborator here; it is an
oracle from (protocol, port, credential) to a result list of asset
candidates, for one fixed address. The asset/sensor creation body
(lines 338-400) only ever `continue`s within its own candidate loops,
so it does not influence which pairs are attempted; the embedding
records the attempted pairs and the winning pair with its candidate
list. -/

/-- A sensor candidate attached to an asset candidate
(`commands::assets::in` sensor entries). -/
structure SensorCandidate where
  type : String
  subtype : String
  ext : List (List (String × String))
deriving DecidableEq

/-- An asset candidate returned by `Assets::getAssets`
(`commands::assets::Out` element, asset part plus sensors). -/
structure AssetCandidate where
  type : String
  subtype : String
  ext : List (List (String × String))
  sensors : List SensorCandidate
deriving DecidableEq

/-- The asset-enumeration oracle for one address:
`(protocol, port, credentialId) ↦ Assets::getAssets` outcome. -/
structure ScanNet where
  getAssets : String → Nat → String → Except String (List AssetCandidate)

/-- The credential loop of `scan` (lines 316-407) for one reachable
protocol: try each credential document in order; the first success
stops the loop. Returns the list of attempted (protocol, credential)
pairs and, on success, the winning credential with its candidate
list. -/
def scanTryDocs (net : ScanNet) (protocol : String) (port : Nat) :
    List String → List (String × String) × Option (String × List AssetCandidate)
  | [] => ([], none)
  | doc :: rest =>
    match net.getAssets protocol port doc with
    | .ok outAsset => ([(protocol, doc)], some (doc, outAsset))
    | .error _ =>
      let r := scanTryDocs net protocol port rest
      ((protocol, doc) :: r.1, r.2)

/-- The protocol loop of `scan` (lines 307-413): walk the probe results
in order, enter the credential loop for each reachable one, and stop
both loops at the first winning pair (the `found` flag / double
`break`). Returns all attempted (protocol, credential) pairs in order
and the winning (protocol, credential, candidates) triple if any. -/
def scanTryProtocols (net : ScanNet) (documents : List String) :
    List ProtocolEntry → List (String × String) × Option (String × String × List AssetCandidate)
  | [] => ([], none)
  | elt :: rest =>
    if elt.reachable then
      match scanTryDocs net elt.protocol elt.port documents with
      | (att, some r) => (att, some (elt.protocol, r.1, r.2))
      | (att, none) =>
        let r := scanTryProtocols net documents rest
        (att ++ r.1, r.2)
    else scanTryProtocols net documents rest

/-- The ordered (protocol, port, credential) trial sequence the spec
describes: every reachable probe result, in probe order, paired with
every credential, in request order. -/
def reachablePairs (protocols : List ProtocolEntry) (documents : List String) :
    List (String × Nat × String) :=
  (protocols.filter (fun e => e.reachable)).flatMap
    (fun e => documents.map (fun d => (e.protocol, e.port, d)))

/-- Spec-described waterfall over the flat trial sequence: attempt each
pair in order up to and including the first one whose enumeration call
succeeds — whatever its candidate list, the empty list included — and
that pair is the unique winner. -/
def firstSuccess (net : ScanNet) :
    List (String × Nat × String) → List (String × String) × Option (String × String × List AssetCandidate)
  | [] => ([], none)
  | (p, port, d) :: rest =>
    match net.getAssets p port d with
    | .ok outAsset => ([(p, d)], some (p, d, outAsset))
    | .error _ =>
      let r := firstSuccess net rest
      ((p, d) :: r.1, r.2)

/-! ## Concrete instances used by counterexamples and witnesses -/

/-- A fresh orchestrator state: status as `statusDiscoveryInit` leaves
it, no addresses recorded. -/
def discoState0 : DiscoState := ⟨⟨.unknown, 0, 0, 0, 0, 0, 0⟩, 0, 0⟩

/-- A range oracle whose expansions all fail (never consulted by the
inputs it is used with). -/
def rangeNet0 : RangeNet := ⟨fun _ => .error "range error", .error "local error"⟩

/-- An IP-mode start request with empty IP list and empty ranges. -/
def startInEmptyIp : StartIn :=
  ⟨[], ⟨.ip, [], [], [], []⟩, ⟨3, "0"⟩⟩

/-- A start request whose discovery mode is none of
IP/MULTI/FULL/LOCAL. -/
def startInBadType : StartIn :=
  ⟨[], ⟨.other, ["192.168.0.1"], [], [], []⟩, ⟨3, "0"⟩⟩

/-- Enumeration oracle for the C2 counterexample: credential `c1`
succeeds with an empty candidate list, credential `c2` succeeds with
one UPS candidate, anything else fails. -/
def scanNetEmptyThenFull : ScanNet :=
  ⟨fun _ _ doc =>
    if doc = "c1" then .ok []
    else if doc = "c2" then .ok [⟨"device", "ups", [], []⟩]
    else .error "no assets"⟩

/-- One reachable SNMP probe result, as the credential loop receives
it. -/
def snmpReachableEntry : ProtocolEntry := ⟨"nut_snmp", 161, true, .maybe⟩

/-- Probe oracle where the host answers the liveness check but every
protocol try fails (the first SNMP write already fails). -/
def probeNetAllFail : ProbeNet :=
  ⟨true, .error "powercom failed", .error "xml failed", ⟨true, true, true, fun _ => false⟩⟩

/-- Probe oracle where the host answers the liveness check and every
SNMP stage and write succeeds, while the HTTP-based tries fail. -/
def probeNetSnmpOk : ProbeNet :=
  ⟨true, .error "powercom failed", .error "xml failed", ⟨true, true, true, fun _ => true⟩⟩

/-- DNS oracle that accepts `10.0.0.7` and resolves it to
`device7.example.com`. -/
def hostNetResolving : HostNet :=
  ⟨fun a => a = "10.0.0.7", fun _ => some "device7.example.com"⟩

/-- A mid-scan state for the progress witness: 3 addresses total, 2
still remaining before the update of the completing task. -/
def discoStateMidScan : DiscoState := ⟨⟨.inProgress, 0, 0, 0, 0, 0, 33⟩, 3, 2⟩

/-! ## Helper lemmas -/

/-- The protocol name of a Powercom entry does not depend on the outcome
of the try. -/
theorem powercomEntry_protocol (r : Except String Unit) :
    (powercomEntry r).protocol = "nut_powercom" := by
  cases r <;> rfl

/-- The protocol name of an XML-PDC entry does not depend on the outcome
of the try. -/
theorem xmlPdcEntry_protocol (r : Except String Unit) :
    (xmlPdcEntry r).protocol = "nut_xml_pdc" := by
  cases r <;> rfl

/-- The protocol name of an SNMP entry does not depend on the outcome
of the try. -/
theorem snmpEntry_protocol (r : Except String Unit) :
    (snmpEntry r).protocol = "nut_snmp" := by
  cases r <;> rfl

/-- The write loop never performs more writes than it has attempt
indices. -/
theorem snmpWrites_count_le (w : Nat → Bool) (l : List Nat) :
    (snmpWrites w l).1 ≤ l.length := by
  induction l with
  | nil => simp [snmpWrites]
  | cons i rest ih =>
    by_cases h : w i = true
    · simpa [snmpWrites, h] using ih
    · simp [snmpWrites, h]

/-- When every listed attempt succeeds, the write loop performs all of
them. -/
theorem snmpWrites_count_all (w : Nat → Bool) (l : List Nat)
    (h : ∀ i ∈ l, w i = true) : (snmpWrites w l).1 = l.length := by
  induction l with
  | nil => rfl
  | cons i rest ih =>
    have hi : w i = true := h i (by simp)
    have hrest : ∀ j ∈ rest, w j = true := fun j hj => h j (by simp [hj])
    simp [snmpWrites, hi, ih hrest]

/-- The write loop reports success exactly when every listed attempt
succeeds. -/
theorem snmpWrites_all_true (w : Nat → Bool) (l : List Nat) :
    (snmpWrites w l).2 = true ↔ ∀ i ∈ l, w i = true := by
  induction l with
  | nil => simp [snmpWrites]
  | cons i rest ih =>
    by_cases h : w i = true
    · simp [snmpWrites, h, ih]
    · simp [snmpWrites, h]

/-! ## Claim theorems -/

/-- C7: the protocol probe on the sentinel address `__fake__` returns,
for every possible state of the network (every oracle) and every
protocol filter, exactly the two fixed entries — reachable
`nut_snmp` on port 1234 and unreachable `nut_xml_pdc` on port 4321 —
so it consults neither the liveness check nor any protocol try. -/
theorem protocolsRun_fake_sentinel (net : ProbeNet) (ps : List String) :
    protocolsRun net ⟨"__fake__", ps⟩ =
      .ok [⟨"nut_snmp", 1234, true, .no⟩, ⟨"nut_xml_pdc", 4321, false, .no⟩] := rfl

/-- C10: a counter update with a device subtype other than `ups`,
`epdu`, `sts` and `sensor` leaves the whole state — subtype counters,
total, progress and scan state — unchanged. -/
theorem updateStatusDiscoveryCounters_frame (s : DiscoState) (t : String)
    (h1 : t ≠ "ups") (h2 : t ≠ "epdu") (h3 : t ≠ "sts") (h4 : t ≠ "sensor") :
    updateStatusDiscoveryCounters t s = s := by
  unfold updateStatusDiscoveryCounters
  simp [h1, h2, h3, h4]

/-- Witness for C10 at the concrete subtype `pdu`. -/
theorem updateStatusDiscoveryCounters_frame_witness :
    updateStatusDiscoveryCounters "pdu" discoState0 = discoState0 :=
  updateStatusDiscoveryCounters_frame discoState0 "pdu"
    (by decide) (by decide) (by decide) (by decide)

/-- C1 (failing input): `start` on a fresh orchestrator accepts both an
IP-mode request with empty IP list and empty ranges and a request with
an unrecognized discovery mode: it returns success — not an
InvalidRequest error — while dispatching zero scan tasks, because every
`fty::unexpected` in `readConfig` is built without `return`. -/
theorem startDiscovery_accepts_empty_request :
    startDiscovery rangeNet0 startInEmptyIp discoState0 =
        .ok (⟨⟨.inProgress, 0, 0, 0, 0, 0, 0⟩, 0, 0⟩, []) ∧
    startDiscovery rangeNet0 startInBadType discoState0 =
        .ok (⟨⟨.inProgress, 0, 0, 0, 0, 0, 0⟩, 0, 0⟩, []) := by
  exact ⟨rfl, rfl⟩

/-- C2 (counterexample): with one reachable protocol and credentials
`c1`, `c2`, where enumeration with `c1` succeeds with an *empty*
candidate list and enumeration with `c2` would succeed with one UPS,
the scan loop stops at `c1` — it does not proceed to the next
credential as the claim states, and the winning pair of the address carries
no assets. -/
theorem scan_empty_success_stops_loops :
    scanTryProtocols scanNetEmptyThenFull ["c1", "c2"] [snmpReachableEntry] =
      ([("nut_snmp", "c1")], some ("nut_snmp", "c1", [])) ∧
    ("nut_snmp", "c2") ∉
      (scanTryProtocols scanNetEmptyThenFull ["c1", "c2"] [snmpReachableEntry]).1 := by
  exact ⟨rfl, by decide⟩

/-- C3 (counterexample): with the protocol filter of the request restricted
to `nut_snmp`, the probe of a live non-sentinel address still produces
results for all three protocols; in particular `nut_powercom` is probed
and reported although it is outside the filter. -/
theorem protocolsRun_reports_outside_filter :
    protocolsRun probeNetAllFail ⟨"10.0.0.1", ["nut_snmp"]⟩ =
      .ok [⟨"nut_powercom", 443, false, .no⟩, ⟨"nut_xml_pdc", 80, false, .no⟩,
           ⟨"nut_snmp", 161, false, .no⟩] ∧
    "nut_powercom" ∉ (["nut_snmp"] : List String) := by
  exact ⟨rfl, by decide⟩

/-- C3 (amended): the probe ignores the protocol filter of the request:
for every oracle state and every request whose address is not the
sentinel and whose host answers the liveness check, it attempts and
reports exactly the three supported protocols `nut_powercom`,
`nut_xml_pdc`, `nut_snmp` in fixed order, whatever `inp.protocols`
contains. -/
theorem protocolsRun_ignores_filter (net : ProbeNet) (inp : ProtocolsIn)
    (h1 : inp.address ≠ "__fake__") (h2 : net.availableHost = true) :
    ∃ l, protocolsRun net inp = .ok l ∧
      l.map ProtocolEntry.protocol = ["nut_powercom", "nut_xml_pdc", "nut_snmp"] := by
  refine ⟨[powercomEntry net.powercom, xmlPdcEntry net.xmlPdc,
           snmpEntry (trySnmp net.snmp)], ?_, ?_⟩
  · simp [protocolsRun, h1, h2]
  · simp [powercomEntry_protocol, xmlPdcEntry_protocol, snmpEntry_protocol]

/-- Witness for the amended C3 theorem: a live address with a filter
naming only `nut_snmp` still yields all three protocol results. -/
theorem protocolsRun_ignores_filter_witness :
    ∃ l, protocolsRun probeNetAllFail ⟨"10.0.0.1", ["nut_snmp"]⟩ = .ok l ∧
      l.map ProtocolEntry.protocol = ["nut_powercom", "nut_xml_pdc", "nut_snmp"] :=
  protocolsRun_ignores_filter probeNetAllFail ⟨"10.0.0.1", ["nut_snmp"]⟩ (by decide) rfl

/-- Each single mutex-protected status operation preserves counter
coherence. -/
theorem applyStatusOp_coherent (op : StatusOp) (s : DiscoState)
    (h : countersCoherent s) : countersCoherent (applyStatusOp op s) := by
  unfold countersCoherent at h ⊢
  cases op with
  | initOp => simp [applyStatusOp, statusDiscoveryInit]
  | resetOp => simp [applyStatusOp, statusDiscoveryReset]
  | countersOp st =>
    simp only [applyStatusOp, updateStatusDiscoveryCounters]
    split_ifs <;> (try simp) <;> omega
  | progressOp =>
    simpa [applyStatusOp, updateStatusDiscoveryProgress] using h
  | checkOp n =>
    by_cases hn : n = 0 <;> simp [applyStatusOp, scanCheck, hn] <;> exact h
  | stopOp =>
    by_cases hst : s.status.state = ScanState.inProgress <;>
      simp [applyStatusOp, stopDiscovery, hst] <;> exact h

/-- Coherence is preserved along any operation sequence. -/
theorem applyStatusOps_coherent (l : List StatusOp) (s : DiscoState)
    (h : countersCoherent s) : countersCoherent (applyStatusOps l s) := by
  induction l generalizing s with
  | nil => exact h
  | cons op rest ih => exact ih _ (applyStatusOp_coherent op s h)

/-- C5: the per-subtype counters `ups + epdu + sts + sensors` sum
exactly to the `discovered` total at every observation point: every
single status-mutating operation — init, reset, counter increment,
progress update, watchdog transition, stop — preserves the equality,
and consequently it holds in every state reachable from an initialized
status by any operation sequence. Every operation is a single
mutex-serialized critical section in the source, so these are exactly
the states a reader can observe. -/
theorem statusDiscovery_counters_coherent :
    (∀ (op : StatusOp) (s : DiscoState),
      countersCoherent s → countersCoherent (applyStatusOp op s)) ∧
    (∀ (l : List StatusOp) (s : DiscoState),
      countersCoherent (applyStatusOps l (statusDiscoveryInit s))) :=
  ⟨applyStatusOp_coherent,
   fun l s => applyStatusOps_coherent l (statusDiscoveryInit s)
     (by simp [statusDiscoveryInit, countersCoherent])⟩

/-- Witness for C5 at a concrete operation and state: a `ups` increment
keeps the counters coherent. -/
theorem statusDiscovery_counters_coherent_witness :
    countersCoherent (applyStatusOp (.countersOp "ups") discoState0) :=
  statusDiscovery_counters_coherent.1 (.countersOp "ups") discoState0 (by decide)

/-- C6: for a live, non-sentinel address whose SNMP socket setup
(resolution, socket, bounded-time connect) succeeds, the probe performs
at most 20 writes on the connected datagram socket; if some write among
the 20 fails the SNMP protocol is reported not reachable (availability
`No`), and if all 20 writes succeed it is reported reachable with
availability `Maybe` — never `Yes`. -/
theorem snmp_probe_write_semantics (net : ProbeNet) (inp : ProtocolsIn)
    (h1 : inp.address ≠ "__fake__") (h2 : net.availableHost = true)
    (hg : net.snmp.getaddrinfoOk = true) (hs : net.snmp.socketOk = true)
    (hc : net.snmp.connectOk = true) :
    trySnmpWriteCount net.snmp ≤ 20 ∧
    protocolsRun net inp =
      .ok [powercomEntry net.powercom, xmlPdcEntry net.xmlPdc,
           snmpEntry (trySnmp net.snmp)] ∧
    ((∃ i, i < 20 ∧ net.snmp.writeOk i = false) →
      snmpEntry (trySnmp net.snmp) = ⟨"nut_snmp", 161, false, .no⟩) ∧
    ((∀ i, i < 20 → net.snmp.writeOk i = true) →
      trySnmpWriteCount net.snmp = 20 ∧
      snmpEntry (trySnmp net.snmp) = ⟨"nut_snmp", 161, true, .maybe⟩) := by
  refine ⟨?_, ?_, ?_, ?_⟩
  · unfold trySnmpWriteCount
    rw [hg, hs, hc]
    simpa using (snmpWrites_count_le net.snmp.writeOk (List.range 20)).trans
      (by simp)
  · simp [protocolsRun, h1, h2]
  · intro hfail
    obtain ⟨i, hi, hwi⟩ := hfail
    have hall : ¬ ((snmpWrites net.snmp.writeOk (List.range 20)).2 = true) := by
      rw [snmpWrites_all_true]
      intro hforall
      have := hforall i (by simpa using hi)
      rw [this] at hwi
      exact Bool.noConfusion hwi
    unfold trySnmp
    rw [hg, hs, hc]
    simp only [Bool.not_true, Bool.false_eq_true, if_false]
    rw [if_neg hall]
    rfl
  · intro hok
    have hmem : ∀ i ∈ List.range 20, net.snmp.writeOk i = true := by
      intro i hi
      exact hok i (by simpa using hi)
    have hall : (snmpWrites net.snmp.writeOk (List.range 20)).2 = true :=
      (snmpWrites_all_true _ _).mpr hmem
    constructor
    · unfold trySnmpWriteCount
      rw [hg, hs, hc]
      simpa using snmpWrites_count_all net.snmp.writeOk (List.range 20) hmem
    · unfold trySnmp
      rw [hg, hs, hc]
      simp only [Bool.not_true, Bool.false_eq_true, if_false]
      rw [if_pos hall]
      rfl

/-- Witness for C6: a live address on which every SNMP stage and all 20
writes succeed is reported reachable with `Maybe` availability, after
at most 20 writes. -/
theorem snmp_probe_write_semantics_witness :
    trySnmpWriteCount probeNetSnmpOk.snmp = 20 ∧
    snmpEntry (trySnmp probeNetSnmpOk.snmp) = ⟨"nut_snmp", 161, true, .maybe⟩ := by
  have h := snmp_probe_write_semantics probeNetSnmpOk ⟨"10.0.0.1", []⟩
    (by decide) rfl rfl rfl rfl
  exact h.2.2.2 (fun i _ => rfl)

/-- C4 (counterexample): with 3 addresses total and 2 remaining before
the update (so 2 completed after it), the published progress is 66 —
the truncated integer quotient — while rounding 100·2/3 in exact
rational arithmetic gives 67. -/
theorem updateStatusDiscoveryProgress_truncates :
    (updateStatusDiscoveryProgress discoStateMidScan).status.progress = 66 ∧
    round ((100 : ℚ) * (3 - 1) / 3) = 67 := by
  constructor
  · decide
  · norm_num [round_eq]

/-- C4 (amended): the progress published after a task completion is
`100 * (total - remaining) / total` in truncating natural division
(the C++ expression is unsigned integer arithmetic, so `std::round` is
applied to an already-truncated quotient), it never exceeds 100, and
with a zero total it is 100; `remaining` here is the remaining count
after the decrement done by the update. Stated for any state with at least one
remaining address and a total below 2^57 (so that none of the `size_t`
intermediates wraps). -/
theorem progress_is_integer_division (s : DiscoState) :
    (s.listIpAddressNb = 0 →
      (updateStatusDiscoveryProgress s).status.progress = 100) ∧
    (1 ≤ s.listIpAddressCount → s.listIpAddressCount ≤ s.listIpAddressNb →
      s.listIpAddressNb < 2 ^ 57 →
      (updateStatusDiscoveryProgress s).status.progress =
        100 * (s.listIpAddressNb - (s.listIpAddressCount - 1)) / s.listIpAddressNb ∧
      (updateStatusDiscoveryProgress s).status.progress ≤ 100 ∧
      (updateStatusDiscoveryProgress s).listIpAddressCount = s.listIpAddressCount - 1) := by
  constructor
  · intro h0
    simp [updateStatusDiscoveryProgress, progressFormula, h0]
  · intro h1 h2 h3
    have hW : W64 = 18446744073709551616 := by norm_num [W64]
    have hW32 : W32 = 4294967296 := by norm_num [W32]
    have h57 : (2 : Nat) ^ 57 = 144115188075855872 := by norm_num
    rw [h57] at h3
    have hnb0 : s.listIpAddressNb ≠ 0 := by omega
    have hc : decrementW64 s.listIpAddressCount = s.listIpAddressCount - 1 := by
      simp only [decrementW64, hW]
      omega
    have hdiff : (s.listIpAddressNb + W64 - (s.listIpAddressCount - 1)) % W64 =
        s.listIpAddressNb - (s.listIpAddressCount - 1) := by
      rw [hW]
      omega
    have hmul : (100 * (s.listIpAddressNb - (s.listIpAddressCount - 1))) % W64 =
        100 * (s.listIpAddressNb - (s.listIpAddressCount - 1)) := by
      rw [hW]
      omega
    have hqle : 100 * (s.listIpAddressNb - (s.listIpAddressCount - 1)) / s.listIpAddressNb ≤ 100 := by
      have hle : 100 * (s.listIpAddressNb - (s.listIpAddressCount - 1)) ≤
          100 * s.listIpAddressNb := by omega
      have h100 : 100 * s.listIpAddressNb / s.listIpAddressNb = 100 :=
        Nat.mul_div_cancel _ (show 0 < s.listIpAddressNb by omega)
      calc 100 * (s.listIpAddressNb - (s.listIpAddressCount - 1)) / s.listIpAddressNb
          ≤ 100 * s.listIpAddressNb / s.listIpAddressNb := Nat.div_le_div_right hle
        _ = 100 := h100
    have hmod32 : (100 * (s.listIpAddressNb - (s.listIpAddressCount - 1)) / s.listIpAddressNb) % W32 =
        100 * (s.listIpAddressNb - (s.listIpAddressCount - 1)) / s.listIpAddressNb := by
      rw [hW32]
      exact Nat.mod_eq_of_lt (by omega)
    refine ⟨?_, ?_, ?_⟩
    · simp only [updateStatusDiscoveryProgress, progressFormula, hc, hdiff, hmul, hmod32]
      rw [if_pos hnb0]
      simp only [clamp100]
      rw [if_neg (by omega)]
    · simp only [updateStatusDiscoveryProgress, progressFormula, hc, hdiff, hmul, hmod32]
      rw [if_pos hnb0]
      simp only [clamp100]
      split <;> omega
    · simp only [updateStatusDiscoveryProgress, hc]

/-- Witness for the amended C4 theorem at 3 total / 2 remaining:
progress is the truncated quotient (= 66). -/
theorem progress_is_integer_division_witness :
    (updateStatusDiscoveryProgress discoStateMidScan).status.progress =
      100 * (discoStateMidScan.listIpAddressNb - (discoStateMidScan.listIpAddressCount - 1)) /
        discoStateMidScan.listIpAddressNb :=
  ((progress_is_integer_division discoStateMidScan).2 (by decide) (by decide) (by decide)).1

/-- The last element of a cons cell, as an option with default. -/
theorem getLast?_cons_eq {α : Type} : ∀ (a : α) (l : List α),
    (a :: l).getLast? = some (l.getLast?.getD a)
  | _, [] => rfl
  | a, c :: l => by
    rw [List.getLast?_cons_cons, getLast?_cons_eq c l]
    rfl

/-- The credential loop agrees with the spec waterfall over this
trial segment of one protocol. -/
theorem firstSuccess_map_docs (net : ScanNet) (p : String) (port : Nat)
    (docs : List String) :
    firstSuccess net (docs.map (fun d => (p, port, d))) =
      ((scanTryDocs net p port docs).1,
       (scanTryDocs net p port docs).2.map (fun r => (p, r.1, r.2))) := by
  induction docs with
  | nil => rfl
  | cons d rest ih =>
    cases h : net.getAssets p port d with
    | ok outAsset => simp [firstSuccess, scanTryDocs, h]
    | error e => simp [firstSuccess, scanTryDocs, h, ih]

/-- The spec waterfall over an appended trial sequence: the right part
is only reached when the left part had no success. -/
theorem firstSuccess_append (net : ScanNet) (l1 l2 : List (String × Nat × String)) :
    firstSuccess net (l1 ++ l2) =
      match firstSuccess net l1 with
      | (att, some w) => (att, some w)
      | (att, none) =>
        (att ++ (firstSuccess net l2).1, (firstSuccess net l2).2) := by
  induction l1 with
  | nil => simp [firstSuccess]
  | cons x rest ih =>
    obtain ⟨p, port, d⟩ := x
    cases h : net.getAssets p port d with
    | ok outAsset => simp [firstSuccess, h]
    | error e =>
      cases hr : firstSuccess net rest with
      | mk att win =>
        rw [hr] at ih
        cases win with
        | some w => simp [firstSuccess, h, ih, hr]
        | none => simp [firstSuccess, h, ih, hr]

/-- C2 (amended): the scan loop attempts the (reachable protocol,
credential) pairs in probe-order × request-order and stops at the first
pair whose enumeration call *succeeds — with any candidate list, the
empty list included*; that first success is the unique winning pair, so
each address yields at most one winning pair, but an empty successful
enumeration is not retried with further credentials or protocols. -/
theorem scan_waterfall_first_success (net : ScanNet) (documents : List String)
    (protocols : List ProtocolEntry) :
    scanTryProtocols net documents protocols =
      firstSuccess net (reachablePairs protocols documents) := by
  induction protocols with
  | nil => rfl
  | cons elt rest ih =>
    cases hr : elt.reachable with
    | false =>
      have hfilter : reachablePairs (elt :: rest) documents =
          reachablePairs rest documents := by
        simp [reachablePairs, List.filter_cons, hr]
      rw [hfilter, ← ih]
      simp [scanTryProtocols, hr]
    | true =>
      have hfilter : reachablePairs (elt :: rest) documents =
          (documents.map (fun d => (elt.protocol, elt.port, d))) ++
            reachablePairs rest documents := by
        simp [reachablePairs, List.filter_cons, hr]
      rw [hfilter, firstSuccess_append, firstSuccess_map_docs]
      cases hd : (scanTryDocs net elt.protocol elt.port documents).2 with
      | some r =>
        simp only [scanTryProtocols, hr, if_true]
        rw [show scanTryDocs net elt.protocol elt.port documents =
              ((scanTryDocs net elt.protocol elt.port documents).1, some r) from by
            rw [← hd]]
        simp
      | none =>
        simp only [scanTryProtocols, hr, if_true]
        rw [show scanTryDocs net elt.protocol elt.port documents =
              ((scanTryDocs net elt.protocol elt.port documents).1, none) from by
            rw [← hd]]
        simp [ih]

/-- C9: `updateHostName` is atomic on failure and appends exactly two
writable attributes on success: for an empty address, an address
`inet_aton` rejects, or a failing reverse lookup it returns an error
and leaves the extended-attribute list exactly as it was; on success it
appends `dns.1` with the full resolved name and `hostname` with that
name truncated at the first dot, both with `readOnly = false`. -/
theorem updateHostName_atomic (net : HostNet) (address : String)
    (ext : List (String × MapExtObj)) :
    (address = "" →
      updateHostName net address ext = (.error "Ip address empty", ext)) ∧
    (address ≠ "" → net.inetAton address = false →
      updateHostName net address ext =
        (.error ("Error during read DNS for " ++ address), ext)) ∧
    (address ≠ "" → net.inetAton address = true → net.nameLookup address = none →
      updateHostName net address ext =
        (.error ("No host information retrieved from DNS for " ++ address), ext)) ∧
    (∀ dnsName, address ≠ "" → net.inetAton address = true →
      net.nameLookup address = some dnsName →
      updateHostName net address ext =
        (.ok (), ext ++ [("dns.1", ⟨dnsName, false⟩),
                         ("hostname", ⟨hostnameFromDns dnsName, false⟩)])) := by
  refine ⟨?_, ?_, ?_, ?_⟩
  · intro h0
    simp [updateHostName, h0]
  · intro h0 hia
    simp [updateHostName, h0, hia]
  · intro h0 hia hnl
    simp [updateHostName, h0, hia, hnl]
  · intro dnsName h0 hia hnl
    simp [updateHostName, h0, hia, hnl]

/-- Witness for C9: resolving `10.0.0.7` to `device7.example.com`
appends the full name as `dns.1` and `device7` as `hostname`. -/
theorem updateHostName_atomic_witness :
    updateHostName hostNetResolving "10.0.0.7" [] =
      (.ok (), [("dns.1", ⟨"device7.example.com", false⟩),
                ("hostname", ⟨hostnameFromDns "device7.example.com", false⟩)]) :=
  (updateHostName_atomic hostNetResolving "10.0.0.7" []).2.2.2
    "device7.example.com" (by decide) (by decide) rfl

/-- Pushing a cons through last-element selection with a default. -/
theorem optLast_cons_map_getD {α β : Type} (f : α → β) (b : β) (a : α) (l : List α) :
    (((a :: l).getLast?).map f).getD b = ((l.getLast?).map f).getD (f a) := by
  rw [getLast?_cons_eq]
  cases l.getLast? <;> rfl

/-- The inner loop of `updateExt` computes, for one map, the last
non-`read_only` pair (as name and value) and the result of the last
`read_only` test, falling back to the accumulator. -/
theorem updateExtMapLoop_eq (m : List (String × String)) :
    ∀ (kv : String) (obj : MapExtObj),
      updateExtMapLoop (kv, obj) m =
        (((m.filter (fun p => p.1 ≠ "read_only")).getLast?.map Prod.fst).getD kv,
         ⟨((m.filter (fun p => p.1 ≠ "read_only")).getLast?.map Prod.snd).getD obj.value,
          ((m.filter (fun p => p.1 = "read_only")).getLast?.map
            (fun p => decide (p.2 = "true"))).getD obj.readOnly⟩) := by
  induction m with
  | nil => intro kv obj; rfl
  | cons pr rest ih =>
    intro kv obj
    obtain ⟨k, v⟩ := pr
    by_cases hk : k = "read_only"
    · subst hk
      rw [show updateExtMapLoop (kv, obj) (("read_only", v) :: rest) =
          updateExtMapLoop (kv, { obj with readOnly := decide (v = "true") }) rest from by
        simp [updateExtMapLoop]]
      rw [ih]
      rw [List.filter_cons, List.filter_cons]
      simp [optLast_cons_map_getD]
    · rw [show updateExtMapLoop (kv, obj) ((k, v) :: rest) =
          updateExtMapLoop (k, { obj with value := v }) rest from by
        simp [updateExtMapLoop, hk]]
      rw [ih]
      rw [List.filter_cons, List.filter_cons]
      simp [optLast_cons_map_getD, hk]

/-- C8 (amended): `updateExt` realizes the §4.4 translation with one
proviso forced by the counterexample: within each input map the *last*
pair (in map iteration order) whose key is not `read_only` provides the
attribute name and value, a `read_only` entry with value `"true"` (and
nothing else) marks it read-only, and a map contributes nothing when it
has no such pair — or when the key of that pair is the empty string, which
the `keyVal.empty()` guard in the source also drops. -/
theorem updateExt_matches_spec (extIn : List (List (String × String))) :
    updateExt extIn = updateExtSpecAmended extIn := by
  induction extIn with
  | nil => rfl
  | cons m rest ih =>
    simp only [updateExt, updateExtSpecAmended, List.foldr_cons] at ih ⊢
    rw [ih]
    congr 1
    rw [updateExtMapLoop_eq]
    cases ho : (m.filter (fun p => p.1 ≠ "read_only")).getLast? with
    | none => simp [mapExtObjDefault]
    | some p2 =>
      cases hro : (m.filter (fun p => p.1 = "read_only")).getLast? with
      | none => by_cases hp : p2.1 = "" <;> simp [hp, mapExtObjDefault]
      | some q => by_cases hp : p2.1 = "" <;> simp [hp, mapExtObjDefault]

/-- C8 (counterexample): a map whose only key is the empty string — a
key other than `read_only`, carrying the value `bar` — contributes no
output attribute at all, while the claim requires exactly one for every
map containing a key other than `read_only`. -/
theorem updateExt_drops_empty_key :
    updateExt [[("", "bar")]] = [] ∧ ("" : String) ≠ "read_only" :=
  ⟨rfl, by decide⟩

end FtyDisco
